import Mathlib

/-!
Shallow embedding of the DICOM anonymizer (`src/anonymize_dicom.py`).

The program's core is `anonymize_dicom_file(input_path, output_path,
tags_to_anonymize)`: it decodes a DICOM file into a dataset, rewrites the
value of every selected tag according to the element's value representation
(VR), removes all private (odd-group) elements, synchronizes the file-meta
Media-Storage-SOP-Instance-UID (0002,0003) with the body SOP-Instance-UID
(0008,0018), and writes the result.

Modelling decisions:
* A dataset is an association list of data elements keyed by tag
  ((group, element) pairs of naturals); pydicom keeps tags unique, which we
  carry as a hypothesis where a claim needs it.
* Values are modelled as their byte strings.
* `pydicom.uid.generate_uid` is nondeterministic library code; we model it
  as a supplied stream `generate_uid : Nat → String` of fresh identifiers,
  consumed left to right (a counter is threaded through the rewrite loop).
* Whether `ds[tag].value = ""` is accepted for a given VR is pydicom
  internals (the code catches `TypeError`); we model it as a supplied
  predicate `blankOk : String → Bool` on VR names.
* `pydicom.dcmread` either yields a dataset or raises
  `InvalidDicomError`; the caller catches exactly that, so decoding is an
  `Option FileDataset` input. The unguarded read of `ds.SOPInstanceUID`
  can raise `AttributeError`, modelled with `Except`.
* File-system I/O (paths, directory creation, `save_as`) is out of the
  model; producing `.ok (true, some ds)` stands for "output file written
  with dataset ds", `.ok (false, none)` for the skip path, and `.error`
  for an escaped exception (no output written).
-/

/-- A data element: a (tag, VR, value) triple. The tag is a
(group, element) pair; the value is its byte string. -/
structure DataElement where
  tag : Nat × Nat
  vr : String
  value : String
deriving DecidableEq, Repr

/-- First element with the given tag, as pydicom's `ds[tag]` on the
unique-key dataset dictionary. -/
def lookupE (t : Nat × Nat) : List DataElement → Option DataElement
  | [] => none
  | e :: rest => if e.tag = t then some e else lookupE t rest

/-- `tag in ds` (pydicom `Dataset.__contains__`). -/
def containsTag (t : Nat × Nat) (l : List DataElement) : Bool :=
  (lookupE t l).isSome

/-- The value of the element at a tag, when present. -/
def lookupVal (t : Nat × Nat) (l : List DataElement) : Option String :=
  (lookupE t l).map DataElement.value

/-- `ds[tag].value = v`: overwrite the value of the element(s) at `t`,
keeping tag and VR. -/
def setValue (t : Nat × Nat) (v : String) : List DataElement → List DataElement
  | [] => []
  | e :: rest =>
    (if e.tag = t then { e with value := v } else e) :: setValue t v rest

/-- `del ds[tag]`. -/
def deleteTag (t : Nat × Nat) : List DataElement → List DataElement
  | [] => []
  | e :: rest => if e.tag = t then deleteTag t rest else e :: deleteTag t rest

/-- pydicom `Tag.is_private`: odd group number. -/
def isPrivate (t : Nat × Nat) : Bool :=
  t.1 % 2 = 1

/-- `ds.remove_private_tags()`: drop every element with an odd group. -/
def remove_private_tags : List DataElement → List DataElement
  | [] => []
  | e :: rest =>
    if isPrivate e.tag then remove_private_tags rest
    else e :: remove_private_tags rest

/-- One iteration of the `for group, element in tags_to_anonymize` loop of
`anonymize_dicom_file`, on the state (dataset body, number of UIDs
generated so far). Absent tags are skipped; the VR dispatch follows the
source's if/elif chain, with `blankOk` deciding whether the final
`ds[tag].value = ""` assignment succeeds or raises `TypeError`
(in which case the element is deleted). -/
def applyTag (generate_uid : Nat → String) (blankOk : String → Bool)
    (st : List DataElement × Nat) (t : Nat × Nat) : List DataElement × Nat :=
  match lookupE t st.1 with
  | none => st
  | some e =>
    if e.vr = "UI" then
      (setValue t (generate_uid st.2) st.1, st.2 + 1)
    else if e.vr = "PN" ∨ e.vr = "SH" ∨ e.vr = "LO" ∨ e.vr = "ST" ∨ e.vr = "LT" then
      (setValue t "ANONYMIZED" st.1, st.2)
    else if e.vr = "DA" then
      (setValue t "18000101" st.1, st.2)
    else if e.vr = "TM" then
      (setValue t "000000" st.1, st.2)
    else if e.vr = "DS" ∨ e.vr = "IS" then
      (setValue t "0" st.1, st.2)
    else if blankOk e.vr then
      (setValue t "" st.1, st.2)
    else
      (deleteTag t st.1, st.2)

/-- The whole tag-rewrite loop (lines 75-94 of the source). -/
def rewritePass (generate_uid : Nat → String) (blankOk : String → Bool)
    (sel : List (Nat × Nat)) (st : List DataElement × Nat) :
    List DataElement × Nat :=
  sel.foldl (applyTag generate_uid blankOk) st

/-- Dataset body after the tag-rewrite loop (UID counter starts at 0). -/
def rewrittenBody (generate_uid : Nat → String) (blankOk : String → Bool)
    (sel : List (Nat × Nat)) (body : List DataElement) : List DataElement :=
  (rewritePass generate_uid blankOk sel (body, 0)).1

/-- Dataset body after the rewrite loop and `ds.remove_private_tags()`. -/
def strippedBody (generate_uid : Nat → String) (blankOk : String → Bool)
    (sel : List (Nat × Nat)) (body : List DataElement) : List DataElement :=
  remove_private_tags (rewrittenBody generate_uid blankOk sel body)

/-- A decoded DICOM file: the file-meta sub-mapping (`ds.file_meta`) and
the main dataset body. -/
structure FileDataset where
  file_meta : List DataElement
  body : List DataElement
deriving DecidableEq, Repr

/-- The one Python exception the decoded-path of `anonymize_dicom_file`
can raise: `AttributeError` from reading `ds.SOPInstanceUID` when tag
(0008,0018) is absent from the body. -/
inductive PyExc where
  | attributeError
deriving DecidableEq, Repr

/-- The engine on a decoded dataset (source lines 75-101): rewrite the
selected tags, remove private tags, then, if (0002,0003) is in the file
meta, overwrite it with the body's SOP-Instance-UID value — raising
`AttributeError` when the body has no (0008,0018) element. -/
def anonymize_ds (generate_uid : Nat → String) (blankOk : String → Bool)
    (sel : List (Nat × Nat)) (ds : FileDataset) : Except PyExc FileDataset :=
  let body2 := strippedBody generate_uid blankOk sel ds.body
  if containsTag (0x0002, 0x0003) ds.file_meta then
    match lookupE (0x0008, 0x0018) body2 with
    | none => .error .attributeError
    | some e => .ok ⟨setValue (0x0002, 0x0003) e.value ds.file_meta, body2⟩
  else
    .ok ⟨ds.file_meta, body2⟩

/-- `anonymize_dicom_file`: decode (input `none` = `InvalidDicomError`,
caught, returning `False` and writing nothing), run the engine, write the
output. `.ok (b, out)` is the returned boolean together with the written
dataset; `.error` is an escaped exception (nothing written). -/
def anonymize_dicom_file (generate_uid : Nat → String)
    (blankOk : String → Bool) (input : Option FileDataset)
    (sel : List (Nat × Nat)) : Except PyExc (Bool × Option FileDataset) :=
  match input with
  | none => .ok (false, none)
  | some ds =>
    match anonymize_ds generate_uid blankOk sel ds with
    | .error ex => .error ex
    | .ok ds2 => .ok (true, some ds2)

/-- The deterministic part of the VR dispatch, as a characterization: the
replacement value the loop writes for a non-UI VR, or `none` when the
element is deleted instead. -/
def sentinelValue (blankOk : String → Bool) (vr : String) : Option String :=
  if vr = "PN" ∨ vr = "SH" ∨ vr = "LO" ∨ vr = "ST" ∨ vr = "LT" then
    some "ANONYMIZED"
  else if vr = "DA" then some "18000101"
  else if vr = "TM" then some "000000"
  else if vr = "DS" ∨ vr = "IS" then some "0"
  else if blankOk vr then some ""
  else none

/-- Split a character list at the dots. -/
def splitDot : List Char → List (List Char)
  | [] => [[]]
  | c :: rest =>
    if c = '.' then [] :: splitDot rest
    else
      match splitDot rest with
      | [] => [[c]]
      | g :: gs => (c :: g) :: gs

/-- Modelled from the spec: the Unique Identifier Generator contract of
§4.3 (the pydicom `generate_uid` library routine, which is outside this
repository): a UID is a nonempty dot-separated sequence of nonempty
numeric components with total length at most 64. -/
def isValidUID (s : String) : Bool :=
  decide (0 < s.data.length) && decide (s.data.length ≤ 64) &&
    (splitDot s.data).all (fun c => decide (0 < c.length) && c.all Char.isDigit)

-- Concrete demonstration data used by witnesses and sanity checks.

/-- A demo UID stream. -/
def demoUid (n : Nat) : String := "2.25." ++ toString n

/-- A second demo UID stream, distinct from `demoUid`. -/
def demoUid2 (n : Nat) : String := "1.3.6." ++ toString n

/-- A constant demo UID stream whose outputs are all valid. -/
def demoUidC (_ : Nat) : String := "1.2.840.10008.99"

/-- A demo blanking oracle that accepts the empty value for every VR. -/
def blankAll (_ : String) : Bool := true

/-- A demo blanking oracle that rejects the empty value for every VR. -/
def blankNone (_ : String) : Bool := false

/-- Demo patient-name element (0010,0010), VR PN. -/
def demoPN : DataElement := ⟨(0x0010, 0x0010), "PN", "Jane Doe"⟩

/-- Demo birth-date element (0010,0030), VR DA. -/
def demoDA : DataElement := ⟨(0x0010, 0x0030), "DA", "19850604"⟩

/-- Demo SOP-Instance-UID element (0008,0018), VR UI. -/
def demoUI : DataElement := ⟨(0x0008, 0x0018), "UI", "1.2.3.4"⟩

/-- Demo private element (0009,0010). -/
def demoPriv : DataElement := ⟨(0x0009, 0x0010), "LO", "vendor data"⟩

/-- Demo fixed-width binary element (0028,0010) Rows, VR US. -/
def demoUS : DataElement := ⟨(0x0028, 0x0010), "US", "512"⟩

/-- Demo file-meta Media-Storage-SOP-Instance-UID element (0002,0003). -/
def demoMetaE : DataElement := ⟨(0x0002, 0x0003), "UI", "1.2.3.9"⟩

/-- A demo decoded file. -/
def demoDS : FileDataset :=
  ⟨[demoMetaE], [demoUI, demoPN, demoDA, demoPriv, demoUS]⟩

/-- A private-free demo body. -/
def demoBodyPF : List DataElement := [demoUI, demoPN, demoDA, demoUS]

/-- A decodable file whose meta holds (0002,0003) while the body has no
SOP-Instance-UID element at all. -/
def dsC4 : FileDataset := ⟨[demoMetaE], []⟩

/-- A decodable file whose only body element is an SOP-Instance-UID tag
carrying a fixed-width binary VR. -/
def dsC6 : FileDataset :=
  ⟨[demoMetaE], [⟨(0x0008, 0x0018), "OB", "1.5"⟩]⟩

example :
    anonymize_dicom_file demoUid blankAll (some demoDS) [(0x0010, 0x0010)] =
      .ok (true, some ⟨[⟨(0x0002, 0x0003), "UI", "1.2.3.4"⟩],
        [demoUI, ⟨(0x0010, 0x0010), "PN", "ANONYMIZED"⟩, demoDA, demoUS]⟩) := rfl

example :
    anonymize_dicom_file demoUid blankAll (none) [(0x0010, 0x0010)] =
      .ok (false, none) := rfl

example :
    anonymize_dicom_file demoUid blankAll
      (some ⟨[demoMetaE], [demoPN]⟩) [] = .error .attributeError := rfl

example : isValidUID "2.25.0" = true := by decide

-- ### Basic lemmas about the dataset-dictionary operations

theorem lookupE_tag_eq {t : Nat × Nat} {l : List DataElement} {e : DataElement}
    (h : lookupE t l = some e) : e.tag = t := by
  induction l with
  | nil => simp [lookupE] at h
  | cons a rest ih =>
    by_cases htag : a.tag = t
    · simp [lookupE, htag] at h
      rw [← h]; exact htag
    · simp [lookupE, htag] at h
      exact ih h

theorem lookupE_setValue_self {t : Nat × Nat} {l : List DataElement}
    {e : DataElement} (v : String) (h : lookupE t l = some e) :
    lookupE t (setValue t v l) = some { e with value := v } := by
  induction l with
  | nil => simp [lookupE] at h
  | cons a rest ih =>
    by_cases htag : a.tag = t
    · have he : a = e := by simpa [lookupE, htag] using h
      subst he
      simp [lookupE, setValue, htag]
    · simp [lookupE, setValue, htag] at h ⊢
      exact ih h

theorem lookupE_setValue_ne {t t' : Nat × Nat} {l : List DataElement}
    (v : String) (hne : t' ≠ t) :
    lookupE t (setValue t' v l) = lookupE t l := by
  induction l with
  | nil => rfl
  | cons a rest ih =>
    have hne' : ¬ t = t' := fun hh => hne hh.symm
    by_cases htag : a.tag = t'
    · have hat : ¬ a.tag = t := by rw [htag]; exact hne
      simp [lookupE, setValue, htag, hat, hne, hne', ih]
    · by_cases hat : a.tag = t
      · simp [lookupE, setValue, htag, hat, hne, hne']
      · simp [lookupE, setValue, htag, hat, hne, hne', ih]

theorem lookupE_setValue_none {t t' : Nat × Nat} {l : List DataElement}
    (v : String) (h : lookupE t l = none) :
    lookupE t (setValue t' v l) = none := by
  induction l with
  | nil => rfl
  | cons a rest ih =>
    by_cases hat : a.tag = t
    · simp [lookupE, hat] at h
    · simp [lookupE, hat] at h
      by_cases htag : a.tag = t'
      · have hne : ¬ t' = t := fun hh => hat (htag.trans hh)
        simp [lookupE, setValue, htag, hat, hne, ih h]
      · simp [lookupE, setValue, htag, hat, ih h]

theorem lookupE_deleteTag_self {t : Nat × Nat} (l : List DataElement) :
    lookupE t (deleteTag t l) = none := by
  induction l with
  | nil => rfl
  | cons a rest ih =>
    by_cases htag : a.tag = t
    · simp [deleteTag, htag, ih]
    · simp [deleteTag, lookupE, htag, ih]

theorem lookupE_deleteTag_ne {t t' : Nat × Nat} {l : List DataElement}
    (hne : t' ≠ t) : lookupE t (deleteTag t' l) = lookupE t l := by
  induction l with
  | nil => rfl
  | cons a rest ih =>
    by_cases htag : a.tag = t'
    · have hat : ¬ a.tag = t := by rw [htag]; exact hne
      simp [deleteTag, lookupE, htag, hat, hne, ih]
    · simp [deleteTag, lookupE, htag, ih]

theorem mem_setValue {t : Nat × Nat} {v : String} {l : List DataElement}
    {e' : DataElement} (h : e' ∈ setValue t v l) :
    ∃ e ∈ l, e'.tag = e.tag ∧ e'.vr = e.vr := by
  induction l with
  | nil => simp [setValue] at h
  | cons a rest ih =>
    simp only [setValue, List.mem_cons] at h
    rcases h with h | h
    · by_cases htag : a.tag = t
      · rw [if_pos htag] at h
        exact ⟨a, List.mem_cons_self a rest, by rw [h], by rw [h]⟩
      · rw [if_neg htag] at h
        exact ⟨a, List.mem_cons_self a rest, by rw [h], by rw [h]⟩
    · obtain ⟨e, he, h1, h2⟩ := ih h
      exact ⟨e, List.mem_cons_of_mem a he, h1, h2⟩

theorem mem_deleteTag {t : Nat × Nat} {l : List DataElement}
    {e' : DataElement} (h : e' ∈ deleteTag t l) : e' ∈ l := by
  induction l with
  | nil => simp [deleteTag] at h
  | cons a rest ih =>
    by_cases htag : a.tag = t
    · rw [deleteTag, if_pos htag] at h
      exact List.mem_cons_of_mem a (ih h)
    · rw [deleteTag, if_neg htag] at h
      rcases List.mem_cons.mp h with h | h
      · exact h ▸ List.mem_cons_self a rest
      · exact List.mem_cons_of_mem a (ih h)

theorem mem_remove_private {l : List DataElement} {e : DataElement}
    (h : e ∈ remove_private_tags l) : e ∈ l ∧ isPrivate e.tag = false := by
  induction l with
  | nil => simp [remove_private_tags] at h
  | cons a rest ih =>
    by_cases hp : isPrivate a.tag
    · rw [remove_private_tags, if_pos hp] at h
      exact ⟨List.mem_cons_of_mem a (ih h).1, (ih h).2⟩
    · rw [remove_private_tags, if_neg hp] at h
      rcases List.mem_cons.mp h with h | h
      · rw [h]
        exact ⟨List.mem_cons_self a rest, Bool.eq_false_iff.mpr hp⟩
      · exact ⟨List.mem_cons_of_mem a (ih h).1, (ih h).2⟩

theorem lookupE_remove_private_of_public {t : Nat × Nat}
    {l : List DataElement} (h : isPrivate t = false) :
    lookupE t (remove_private_tags l) = lookupE t l := by
  induction l with
  | nil => rfl
  | cons a rest ih =>
    by_cases hp : isPrivate a.tag
    · have hat : ¬ a.tag = t := by
        intro hEq; rw [hEq, h] at hp; exact Bool.false_ne_true hp
      simp [remove_private_tags, lookupE, hp, hat, ih]
    · simp only [remove_private_tags, hp, if_neg, not_false_iff]
      by_cases hat : a.tag = t
      · simp [lookupE, hat]
      · simp [lookupE, hat, ih]

theorem lookupE_remove_private_none {t : Nat × Nat}
    {l : List DataElement} (h : lookupE t l = none) :
    lookupE t (remove_private_tags l) = none := by
  induction l with
  | nil => rfl
  | cons a rest ih =>
    by_cases hat : a.tag = t
    · simp [lookupE, hat] at h
    · simp only [lookupE, hat, if_neg, not_false_iff] at h
      by_cases hp : isPrivate a.tag
      · simp [remove_private_tags, hp, ih h]
      · simp [remove_private_tags, lookupE, hp, hat, ih h]

theorem remove_private_eq_self {l : List DataElement}
    (h : ∀ e ∈ l, isPrivate e.tag = false) : remove_private_tags l = l := by
  induction l with
  | nil => rfl
  | cons a rest ih =>
    have ha : isPrivate a.tag = false := h a (List.mem_cons_self a rest)
    have ha' : ¬ (isPrivate a.tag = true) := by rw [ha]; exact Bool.false_ne_true
    rw [remove_private_tags, if_neg ha',
      ih (fun e he => h e (List.mem_cons_of_mem a he))]

-- ### Lemmas about one loop iteration (`applyTag`)

theorem lookupE_mem {t : Nat × Nat} {l : List DataElement} {e : DataElement}
    (h : lookupE t l = some e) : e ∈ l := by
  induction l with
  | nil => simp [lookupE] at h
  | cons a rest ih =>
    by_cases htag : a.tag = t
    · simp [lookupE, htag] at h
      rw [← h]; exact List.mem_cons_self a rest
    · simp [lookupE, htag] at h
      exact List.mem_cons_of_mem a (ih h)

theorem applyTag_lookup_ne {u : Nat → String} {b : String → Bool}
    {st : List DataElement × Nat} {a t : Nat × Nat} (ha : a ≠ t) :
    lookupE t (applyTag u b st a).1 = lookupE t st.1 := by
  cases hl : lookupE a st.1 with
  | none => simp [applyTag, hl]
  | some e =>
    simp only [applyTag, hl]
    split_ifs <;>
      simp [lookupE_setValue_ne _ ha, lookupE_deleteTag_ne ha]

theorem applyTag_lookup_none {u : Nat → String} {b : String → Bool}
    {st : List DataElement × Nat} {a t : Nat × Nat}
    (h : lookupE t st.1 = none) :
    lookupE t (applyTag u b st a).1 = none := by
  by_cases hat : a = t
  · subst hat
    simp [applyTag, h]
  · rw [applyTag_lookup_ne hat]
    exact h

theorem applyTag_cases (u : Nat → String) (b : String → Bool)
    (st : List DataElement × Nat) (a : Nat × Nat) :
    (applyTag u b st a).1 = st.1 ∨
      (∃ v, (applyTag u b st a).1 = setValue a v st.1) ∨
      (applyTag u b st a).1 = deleteTag a st.1 := by
  cases hl : lookupE a st.1 with
  | none => left; simp [applyTag, hl]
  | some e =>
    simp only [applyTag, hl]
    split_ifs
    · right; left; exact ⟨_, rfl⟩
    · right; left; exact ⟨_, rfl⟩
    · right; left; exact ⟨_, rfl⟩
    · right; left; exact ⟨_, rfl⟩
    · right; left; exact ⟨_, rfl⟩
    · right; left; exact ⟨_, rfl⟩
    · right; right; rfl

theorem lookupE_setValue_inv {t a : Nat × Nat} {v : String}
    {l : List DataElement} {e' : DataElement}
    (h : lookupE t (setValue a v l) = some e') :
    ∃ e, lookupE t l = some e ∧ e'.tag = e.tag ∧ e'.vr = e.vr := by
  by_cases hat : a = t
  · subst hat
    cases hl : lookupE a l with
    | none => rw [lookupE_setValue_none _ hl] at h; exact absurd h (by simp)
    | some e =>
      rw [lookupE_setValue_self _ hl] at h
      refine ⟨e, rfl, ?_, ?_⟩ <;> rw [← Option.some_inj.mp h]
  · rw [lookupE_setValue_ne _ hat] at h
    exact ⟨e', h, rfl, rfl⟩

theorem applyTag_lookup_some_inv {u : Nat → String} {b : String → Bool}
    {st : List DataElement × Nat} {a t : Nat × Nat} {e' : DataElement}
    (h : lookupE t (applyTag u b st a).1 = some e') :
    ∃ e, lookupE t st.1 = some e ∧ e'.tag = e.tag ∧ e'.vr = e.vr := by
  rcases applyTag_cases u b st a with hc | ⟨v, hc⟩ | hc
  · rw [hc] at h; exact ⟨e', h, rfl, rfl⟩
  · rw [hc] at h; exact lookupE_setValue_inv h
  · rw [hc] at h
    by_cases hat : a = t
    · subst hat; rw [lookupE_deleteTag_self] at h; exact absurd h (by simp)
    · rw [lookupE_deleteTag_ne hat] at h; exact ⟨e', h, rfl, rfl⟩

theorem applyTag_self_some {u : Nat → String} {b : String → Bool}
    {st : List DataElement × Nat} {t : Nat × Nat} {e : DataElement}
    (hl : lookupE t st.1 = some e) (hui : e.vr ≠ "UI") :
    lookupE t (applyTag u b st t).1 =
      (sentinelValue b e.vr).map (fun v => { e with value := v }) := by
  simp only [applyTag, hl]
  rw [if_neg hui]
  simp only [sentinelValue]
  split_ifs with h1 h2 h3 h4 h5
  · simp [lookupE_setValue_self "ANONYMIZED" hl]
  · simp [lookupE_setValue_self "18000101" hl]
  · simp [lookupE_setValue_self "000000" hl]
  · simp [lookupE_setValue_self "0" hl]
  · simp [lookupE_setValue_self "" hl]
  · simp [lookupE_deleteTag_self]

theorem applyTag_self_UI {u : Nat → String} {b : String → Bool}
    {st : List DataElement × Nat} {t : Nat × Nat} {e : DataElement}
    (hl : lookupE t st.1 = some e) (hui : e.vr = "UI") :
    lookupE t (applyTag u b st t).1 = some { e with value := u st.2 } := by
  simp only [applyTag, hl]
  rw [if_pos hui]
  simp [lookupE_setValue_self (u st.2) hl]

-- ### Lemmas about the whole rewrite loop (`rewritePass`)

theorem rewritePass_nil (u : Nat → String) (b : String → Bool)
    (st : List DataElement × Nat) : rewritePass u b [] st = st := rfl

theorem rewritePass_cons (u : Nat → String) (b : String → Bool)
    (a : Nat × Nat) (sel : List (Nat × Nat)) (st : List DataElement × Nat) :
    rewritePass u b (a :: sel) st =
      rewritePass u b sel (applyTag u b st a) := rfl

theorem rewritePass_lookup_notMem {u : Nat → String} {b : String → Bool}
    {t : Nat × Nat} {sel : List (Nat × Nat)}
    (st : List DataElement × Nat) (h : t ∉ sel) :
    lookupE t (rewritePass u b sel st).1 = lookupE t st.1 := by
  induction sel generalizing st with
  | nil => rfl
  | cons a rest ih =>
    have ha : a ≠ t := fun hh => h (hh ▸ List.mem_cons_self a rest)
    have hr : t ∉ rest := fun hh => h (List.mem_cons_of_mem a hh)
    rw [rewritePass_cons, ih _ hr, applyTag_lookup_ne ha]

theorem rewritePass_lookup_none {u : Nat → String} {b : String → Bool}
    {t : Nat × Nat} {sel : List (Nat × Nat)}
    (st : List DataElement × Nat) (h : lookupE t st.1 = none) :
    lookupE t (rewritePass u b sel st).1 = none := by
  induction sel generalizing st with
  | nil => exact h
  | cons a rest ih =>
    rw [rewritePass_cons]
    exact ih _ (applyTag_lookup_none h)

theorem rewritePass_lookup_some_inv {u : Nat → String} {b : String → Bool}
    {t : Nat × Nat} {sel : List (Nat × Nat)} :
    ∀ (st : List DataElement × Nat) (e' : DataElement),
      lookupE t (rewritePass u b sel st).1 = some e' →
      ∃ e, lookupE t st.1 = some e ∧ e'.tag = e.tag ∧ e'.vr = e.vr := by
  induction sel with
  | nil => intro st e' h; exact ⟨e', h, rfl, rfl⟩
  | cons a rest ih =>
    intro st e' h
    rw [rewritePass_cons] at h
    obtain ⟨e1, he1, ht1, hv1⟩ := ih _ _ h
    obtain ⟨e0, he0, ht0, hv0⟩ := applyTag_lookup_some_inv he1
    exact ⟨e0, he0, ht1.trans ht0, hv1.trans hv0⟩

theorem rewritePass_lookup_mem_nonUI {u : Nat → String} {b : String → Bool}
    {t : Nat × Nat} {vr : String} (hvr : vr ≠ "UI") :
    ∀ (sel : List (Nat × Nat)) (st : List DataElement × Nat) (w : String),
      t ∈ sel → lookupE t st.1 = some ⟨t, vr, w⟩ →
      lookupE t (rewritePass u b sel st).1 =
        (sentinelValue b vr).map (fun v => ⟨t, vr, v⟩) := by
  intro sel
  induction sel with
  | nil => intro st w hmem; exact absurd hmem (List.not_mem_nil t)
  | cons a rest ih =>
    intro st w hmem hl
    rw [rewritePass_cons]
    by_cases hat : a = t
    · subst hat
      have hstep : lookupE a (applyTag u b st a).1 =
          (sentinelValue b vr).map (fun v => (⟨a, vr, v⟩ : DataElement)) :=
        applyTag_self_some hl hvr
      by_cases hmem' : a ∈ rest
      · cases hsent : sentinelValue b vr with
        | none =>
          rw [hsent] at hstep
          simp only [Option.map_none'] at hstep
          rw [rewritePass_lookup_none _ hstep]
          simp [hsent]
        | some v0 =>
          rw [hsent] at hstep
          simp only [Option.map_some'] at hstep
          rw [ih (applyTag u b st a) v0 hmem' hstep, hsent]
      · rw [rewritePass_lookup_notMem _ hmem', hstep]
    · have ht : t ∈ rest := by
        rcases List.mem_cons.mp hmem with h | h
        · exact absurd h.symm hat
        · exact h
      refine ih (applyTag u b st a) w ht ?_
      rw [applyTag_lookup_ne hat]
      exact hl

theorem rewritePass_lookup_sel_nonUI {u : Nat → String} {b : String → Bool}
    {t : Nat × Nat} {sel : List (Nat × Nat)} {st : List DataElement × Nat}
    {e : DataElement} (hmem : t ∈ sel) (hl : lookupE t st.1 = some e)
    (hvr : e.vr ≠ "UI") :
    lookupE t (rewritePass u b sel st).1 =
      (sentinelValue b e.vr).map (fun v => ⟨t, e.vr, v⟩) := by
  have htag : e.tag = t := lookupE_tag_eq hl
  obtain ⟨etag, evr, eva⟩ := e
  have htag' : etag = t := htag
  subst htag'
  exact rewritePass_lookup_mem_nonUI hvr sel st eva hmem hl

theorem rewritePass_lookup_mem_UI {u : Nat → String} {b : String → Bool}
    {t : Nat × Nat} :
    ∀ (sel : List (Nat × Nat)) (st : List DataElement × Nat) (w : String),
      t ∈ sel → lookupE t st.1 = some ⟨t, "UI", w⟩ →
      ∃ k, lookupE t (rewritePass u b sel st).1 = some ⟨t, "UI", u k⟩ := by
  intro sel
  induction sel with
  | nil => intro st w hmem; exact absurd hmem (List.not_mem_nil t)
  | cons a rest ih =>
    intro st w hmem hl
    rw [rewritePass_cons]
    by_cases hat : a = t
    · subst hat
      have hstep : lookupE a (applyTag u b st a).1 =
          some (⟨a, "UI", u st.2⟩ : DataElement) :=
        applyTag_self_UI hl rfl
      by_cases hmem' : a ∈ rest
      · exact ih (applyTag u b st a) (u st.2) hmem' hstep
      · exact ⟨st.2, by rw [rewritePass_lookup_notMem _ hmem', hstep]⟩
    · have ht : t ∈ rest := by
        rcases List.mem_cons.mp hmem with h | h
        · exact absurd h.symm hat
        · exact h
      refine ih (applyTag u b st a) w ht ?_
      rw [applyTag_lookup_ne hat]
      exact hl

theorem rewritePass_lookup_sel_UI {u : Nat → String} {b : String → Bool}
    {t : Nat × Nat} {sel : List (Nat × Nat)} {st : List DataElement × Nat}
    {e : DataElement} (hmem : t ∈ sel) (hl : lookupE t st.1 = some e)
    (hvr : e.vr = "UI") :
    ∃ k, lookupE t (rewritePass u b sel st).1 = some ⟨t, "UI", u k⟩ := by
  have htag : e.tag = t := lookupE_tag_eq hl
  obtain ⟨etag, evr, eva⟩ := e
  have htag' : etag = t := htag
  have hvr' : evr = "UI" := hvr
  subst htag'
  subst hvr'
  exact rewritePass_lookup_mem_UI sel st eva hmem hl

theorem rewritePass_eq_of_noUI {u1 u2 : Nat → String} {b : String → Bool}
    {sel0 : List (Nat × Nat)} :
    ∀ (sel : List (Nat × Nat)) (st : List DataElement × Nat),
      (∀ a ∈ sel, a ∈ sel0) →
      (∀ e ∈ st.1, e.tag ∈ sel0 → e.vr ≠ "UI") →
      rewritePass u1 b sel st = rewritePass u2 b sel st := by
  intro sel
  induction sel with
  | nil => intro st _ _; rfl
  | cons a rest ih =>
    intro st hsub hno
    rw [rewritePass_cons, rewritePass_cons]
    have hstep : applyTag u1 b st a = applyTag u2 b st a := by
      cases hl : lookupE a st.1 with
      | none => simp [applyTag, hl]
      | some e =>
        have hetag : e.tag = a := lookupE_tag_eq hl
        have hui : e.vr ≠ "UI" :=
          hno e (lookupE_mem hl)
            (hetag ▸ hsub a (List.mem_cons_self a rest))
        simp only [applyTag, hl]
        rw [if_neg hui, if_neg hui]
    rw [hstep]
    refine ih (applyTag u2 b st a)
      (fun x hx => hsub x (List.mem_cons_of_mem a hx)) ?_
    intro e' he' hsel
    rcases applyTag_cases u2 b st a with hc | ⟨v, hc⟩ | hc
    · rw [hc] at he'
      exact hno e' he' hsel
    · rw [hc] at he'
      obtain ⟨e0, he0, ht0, hv0⟩ := mem_setValue he'
      rw [hv0]
      exact hno e0 he0 (ht0 ▸ hsel)
    · rw [hc] at he'
      exact hno e' (mem_deleteTag he') hsel

-- ### Lemmas about the engine and the per-file operation

theorem containsTag_iff_lookupE {t : Nat × Nat} {l : List DataElement} :
    containsTag t l = true ↔ ∃ e, lookupE t l = some e := by
  rw [containsTag, Option.isSome_iff_exists]

theorem lookupVal_setValue_self {t : Nat × Nat} {l : List DataElement}
    (v : String) (h : containsTag t l = true) :
    lookupVal t (setValue t v l) = some v := by
  obtain ⟨e, he⟩ := containsTag_iff_lookupE.mp h
  rw [lookupVal, lookupE_setValue_self v he]
  rfl

theorem anonymize_ds_error_iff {u : Nat → String} {b : String → Bool}
    {sel : List (Nat × Nat)} {ds : FileDataset} {ex : PyExc} :
    anonymize_ds u b sel ds = .error ex ↔
      containsTag (0x0002, 0x0003) ds.file_meta = true ∧
        lookupE (0x0008, 0x0018) (strippedBody u b sel ds.body) = none := by
  cases ex
  by_cases hm : containsTag (0x0002, 0x0003) ds.file_meta = true
  · cases hs : lookupE (0x0008, 0x0018) (strippedBody u b sel ds.body) with
    | none => simp [anonymize_ds, hm, hs]
    | some e => simp [anonymize_ds, hm, hs]
  · simp [anonymize_ds, hm]

theorem anonymize_ds_ok_of_meta_absent {u : Nat → String} {b : String → Bool}
    {sel : List (Nat × Nat)} {ds : FileDataset}
    (hm : containsTag (0x0002, 0x0003) ds.file_meta = false) :
    anonymize_ds u b sel ds = .ok ⟨ds.file_meta, strippedBody u b sel ds.body⟩ := by
  have hm' : ¬ containsTag (0x0002, 0x0003) ds.file_meta = true := by
    rw [hm]; exact Bool.false_ne_true
  simp [anonymize_ds, hm']

theorem anonymize_ds_ok_of_sop {u : Nat → String} {b : String → Bool}
    {sel : List (Nat × Nat)} {ds : FileDataset} {e : DataElement}
    (hm : containsTag (0x0002, 0x0003) ds.file_meta = true)
    (hs : lookupE (0x0008, 0x0018) (strippedBody u b sel ds.body) = some e) :
    anonymize_ds u b sel ds =
      .ok ⟨setValue (0x0002, 0x0003) e.value ds.file_meta,
        strippedBody u b sel ds.body⟩ := by
  simp [anonymize_ds, hm, hs]

theorem anonymize_ds_ok_inv {u : Nat → String} {b : String → Bool}
    {sel : List (Nat × Nat)} {ds ds2 : FileDataset}
    (h : anonymize_ds u b sel ds = .ok ds2) :
    ds2.body = strippedBody u b sel ds.body ∧
      ((containsTag (0x0002, 0x0003) ds.file_meta = true ∧
          ∃ e, lookupE (0x0008, 0x0018) (strippedBody u b sel ds.body) = some e ∧
            ds2.file_meta = setValue (0x0002, 0x0003) e.value ds.file_meta) ∨
        (containsTag (0x0002, 0x0003) ds.file_meta = false ∧
          ds2.file_meta = ds.file_meta)) := by
  by_cases hm : containsTag (0x0002, 0x0003) ds.file_meta = true
  · cases hs : lookupE (0x0008, 0x0018) (strippedBody u b sel ds.body) with
    | none => simp [anonymize_ds, hm, hs] at h
    | some e =>
      simp only [anonymize_ds, hm, if_true, hs, Except.ok.injEq] at h
      exact ⟨by rw [← h], Or.inl ⟨hm, e, rfl, by rw [← h]⟩⟩
  · have hm' : containsTag (0x0002, 0x0003) ds.file_meta = false :=
      Bool.eq_false_iff.mpr hm
    rw [anonymize_ds_ok_of_meta_absent hm'] at h
    have h2 := Except.ok.inj h
    exact ⟨congrArg FileDataset.body h2.symm, Or.inr ⟨hm', by rw [← h2]⟩⟩

theorem anonymize_dicom_file_some_ok {u : Nat → String} {b : String → Bool}
    {sel : List (Nat × Nat)} {ds ds2 : FileDataset}
    (h : anonymize_ds u b sel ds = .ok ds2) :
    anonymize_dicom_file u b (some ds) sel = .ok (true, some ds2) := by
  simp [anonymize_dicom_file, h]

theorem anonymize_dicom_file_some_error {u : Nat → String} {b : String → Bool}
    {sel : List (Nat × Nat)} {ds : FileDataset} {ex : PyExc}
    (h : anonymize_ds u b sel ds = .error ex) :
    anonymize_dicom_file u b (some ds) sel = .error ex := by
  simp [anonymize_dicom_file, h]

theorem anonymize_dicom_file_ok_inv {u : Nat → String} {b : String → Bool}
    {sel : List (Nat × Nat)} {ds : FileDataset} {r : Bool × Option FileDataset}
    (h : anonymize_dicom_file u b (some ds) sel = .ok r) :
    ∃ ds2, r = (true, some ds2) ∧ anonymize_ds u b sel ds = .ok ds2 := by
  cases ha : anonymize_ds u b sel ds with
  | error ex => rw [anonymize_dicom_file_some_error ha] at h; exact absurd h (by simp)
  | ok ds2 =>
    rw [anonymize_dicom_file_some_ok ha] at h
    exact ⟨ds2, (Except.ok.inj h).symm, rfl⟩

-- ### The rewrite-loop lemmas restated on `rewrittenBody`

theorem rewrittenBody_lookup_notMem {u : Nat → String} {b : String → Bool}
    {t : Nat × Nat} {sel : List (Nat × Nat)} {body : List DataElement}
    (h : t ∉ sel) :
    lookupE t (rewrittenBody u b sel body) = lookupE t body :=
  rewritePass_lookup_notMem (body, 0) h

theorem rewrittenBody_lookup_none {u : Nat → String} {b : String → Bool}
    {t : Nat × Nat} {sel : List (Nat × Nat)} {body : List DataElement}
    (h : lookupE t body = none) :
    lookupE t (rewrittenBody u b sel body) = none :=
  rewritePass_lookup_none (body, 0) h

theorem rewrittenBody_lookup_sel_nonUI {u : Nat → String} {b : String → Bool}
    {t : Nat × Nat} {sel : List (Nat × Nat)} {body : List DataElement}
    {e : DataElement} (hmem : t ∈ sel) (hl : lookupE t body = some e)
    (hvr : e.vr ≠ "UI") :
    lookupE t (rewrittenBody u b sel body) =
      (sentinelValue b e.vr).map (fun v => ⟨t, e.vr, v⟩) :=
  rewritePass_lookup_sel_nonUI hmem hl hvr

theorem rewrittenBody_lookup_sel_UI {u : Nat → String} {b : String → Bool}
    {t : Nat × Nat} {sel : List (Nat × Nat)} {body : List DataElement}
    {e : DataElement} (hmem : t ∈ sel) (hl : lookupE t body = some e)
    (hvr : e.vr = "UI") :
    ∃ k, lookupE t (rewrittenBody u b sel body) = some ⟨t, "UI", u k⟩ :=
  rewritePass_lookup_sel_UI hmem hl hvr

theorem rewrittenBody_lookup_some_inv {u : Nat → String} {b : String → Bool}
    {t : Nat × Nat} {sel : List (Nat × Nat)} {body : List DataElement}
    {e' : DataElement} (h : lookupE t (rewrittenBody u b sel body) = some e') :
    ∃ e, lookupE t body = some e ∧ e'.tag = e.tag ∧ e'.vr = e.vr :=
  rewritePass_lookup_some_inv (body, 0) e' h

/-- Applying the rewrite loop twice with the same selection leaves a
selected element with a deterministic (non-UI) sentinel unchanged. -/
theorem rewritePass_det_fixed {u1 u2 : Nat → String} {b : String → Bool}
    {sel : List (Nat × Nat)} {body : List DataElement} {t : Nat × Nat}
    {e : DataElement} {v : String} (hmem : t ∈ sel)
    (hl : lookupE t body = some e) (hvr : e.vr ≠ "UI")
    (hsent : sentinelValue b e.vr = some v) :
    lookupE t (rewrittenBody u2 b sel (rewrittenBody u1 b sel body)) =
      lookupE t (rewrittenBody u1 b sel body) := by
  have hp1 : lookupE t (rewrittenBody u1 b sel body) = some ⟨t, e.vr, v⟩ := by
    rw [rewrittenBody_lookup_sel_nonUI hmem hl hvr, hsent]
    rfl
  have hp2 : lookupE t (rewrittenBody u2 b sel (rewrittenBody u1 b sel body)) =
      (sentinelValue b e.vr).map (fun w => ⟨t, e.vr, w⟩) := by
    have h := rewrittenBody_lookup_sel_nonUI (u := u2) (b := b) hmem hp1 hvr
    exact h
  rw [hp2, hp1, hsent]
  rfl

-- ### The claims

/-- Claim C1: for every dataset whose file-meta contains the
Media-Storage-SOP-Instance-UID element (0002,0003), whenever
`anonymize_dicom_file` completes and writes an output dataset, the meta
element's value is byte-for-byte equal to the value of the body's
SOP-Instance-UID element (0008,0018), for any tag selection. -/
theorem claim_C1_meta_uid_synchronized (u : Nat → String) (b : String → Bool)
    (sel : List (Nat × Nat)) (ds ds2 : FileDataset) (flag : Bool)
    (hmeta : containsTag (0x0002, 0x0003) ds.file_meta = true)
    (hrun : anonymize_dicom_file u b (some ds) sel = .ok (flag, some ds2)) :
    ∃ v, lookupVal (0x0002, 0x0003) ds2.file_meta = some v ∧
      lookupVal (0x0008, 0x0018) ds2.body = some v := by
  obtain ⟨ds2', hr, ha⟩ := anonymize_dicom_file_ok_inv hrun
  have hds : ds2 = ds2' := by
    injection hr with h1 h2
    exact Option.some_inj.mp h2
  subst hds
  obtain ⟨hbody, hc⟩ := anonymize_ds_ok_inv ha
  rcases hc with ⟨_, e, hs, hm2⟩ | ⟨hfalse, _⟩
  · refine ⟨e.value, ?_, ?_⟩
    · rw [hm2]
      exact lookupVal_setValue_self e.value hmeta
    · rw [hbody, lookupVal, hs]
      rfl
  · rw [hmeta] at hfalse
    exact absurd hfalse (by simp)

/-- Witness for C1 on a concrete dataset. -/
theorem claim_C1_witness :
    ∃ v, lookupVal (0x0002, 0x0003)
        [⟨(0x0002, 0x0003), "UI", "1.2.3.4"⟩] = some v ∧
      lookupVal (0x0008, 0x0018)
        [demoUI, ⟨(0x0010, 0x0010), "PN", "ANONYMIZED"⟩, demoDA, demoUS] =
          some v := by
  have h := claim_C1_meta_uid_synchronized demoUid blankAll [(0x0010, 0x0010)]
    demoDS ⟨[⟨(0x0002, 0x0003), "UI", "1.2.3.4"⟩],
      [demoUI, ⟨(0x0010, 0x0010), "PN", "ANONYMIZED"⟩, demoDA, demoUS]⟩
    true rfl rfl
  exact h

/-- Claim C2: for every input dataset and every tag selection, no element
with an odd-numbered group (a private element) is present in the dataset
written by `anonymize_dicom_file`; the private-removal pass is not gated
by the selection. -/
theorem claim_C2_no_private_survives (u : Nat → String) (b : String → Bool)
    (inp : Option FileDataset) (sel : List (Nat × Nat)) (flag : Bool)
    (ds2 : FileDataset)
    (hrun : anonymize_dicom_file u b inp sel = .ok (flag, some ds2)) :
    ∀ e ∈ ds2.body, isPrivate e.tag = false := by
  cases inp with
  | none =>
    simp only [anonymize_dicom_file, Except.ok.injEq, Prod.mk.injEq] at hrun
    exact absurd hrun.2 (by simp)
  | some ds =>
    obtain ⟨ds2', hr, ha⟩ := anonymize_dicom_file_ok_inv hrun
    have hds : ds2 = ds2' := by
      injection hr with h1 h2
      exact Option.some_inj.mp h2
    subst hds
    have hbody := (anonymize_ds_ok_inv ha).1
    intro e he
    rw [hbody] at he
    simp only [strippedBody] at he
    exact (mem_remove_private he).2

/-- Witness for C2 on a concrete dataset containing a private element:
the element kept at (0010,0030) in the written body is not private. -/
theorem claim_C2_witness : isPrivate demoDA.tag = false := by
  have h := claim_C2_no_private_survives demoUid blankAll (some demoDS)
    [(0x0010, 0x0010)] true
    ⟨[⟨(0x0002, 0x0003), "UI", "1.2.3.4"⟩],
      [demoUI, ⟨(0x0010, 0x0010), "PN", "ANONYMIZED"⟩, demoDA, demoUS]⟩ rfl
  exact h demoDA (by decide)

/-- Claim C5: if the decoded file's meta contains (0002,0003) but the body
has no SOP-Instance-UID element (0008,0018), `anonymize_dicom_file`
raises (the unguarded `ds.SOPInstanceUID` read) instead of returning a
boolean, and no output dataset is produced. -/
theorem claim_C5_missing_sop_raises (u : Nat → String) (b : String → Bool)
    (sel : List (Nat × Nat)) (ds : FileDataset)
    (hmeta : containsTag (0x0002, 0x0003) ds.file_meta = true)
    (hsop : lookupE (0x0008, 0x0018) ds.body = none) :
    anonymize_dicom_file u b (some ds) sel = .error .attributeError := by
  have h1 : lookupE (0x0008, 0x0018) (rewrittenBody u b sel ds.body) = none :=
    rewrittenBody_lookup_none hsop
  have h2 : lookupE (0x0008, 0x0018) (strippedBody u b sel ds.body) = none := by
    simp only [strippedBody]
    exact lookupE_remove_private_none h1
  exact anonymize_dicom_file_some_error (anonymize_ds_error_iff.mpr ⟨hmeta, h2⟩)

/-- Witness for C5 on a concrete dataset. -/
theorem claim_C5_witness :
    anonymize_dicom_file demoUid blankAll
      (some ⟨[demoMetaE], [demoPN]⟩) [(0x0010, 0x0010)] =
      .error .attributeError := by
  exact claim_C5_missing_sop_raises demoUid blankAll [(0x0010, 0x0010)]
    ⟨[demoMetaE], [demoPN]⟩ rfl rfl

/-- Claim C9: the meta-identifier synchronization runs regardless of the
selection: with the empty selection, a dataset whose meta contains
(0002,0003) and whose body has an SOP-Instance-UID element still gets its
meta UID overwritten with the body value, so an input whose meta UID
differs from its body UID is mutated. -/
theorem claim_C9_meta_sync_unconditional (u : Nat → String)
    (b : String → Bool) (ds : FileDataset) (e : DataElement)
    (hmeta : containsTag (0x0002, 0x0003) ds.file_meta = true)
    (hsop : lookupE (0x0008, 0x0018) ds.body = some e) :
    ∃ ds2, anonymize_dicom_file u b (some ds) [] = .ok (true, some ds2) ∧
      lookupVal (0x0002, 0x0003) ds2.file_meta = some e.value ∧
      (lookupVal (0x0002, 0x0003) ds.file_meta ≠ some e.value →
        ds2.file_meta ≠ ds.file_meta) := by
  have hgroup : isPrivate (0x0008, 0x0018) = false := rfl
  have h2 : lookupE (0x0008, 0x0018) (strippedBody u b [] ds.body) = some e := by
    simp only [strippedBody]
    have h1 : rewrittenBody u b [] ds.body = ds.body := rfl
    rw [h1, lookupE_remove_private_of_public hgroup]
    exact hsop
  refine ⟨_, anonymize_dicom_file_some_ok (anonymize_ds_ok_of_sop hmeta h2),
    ?_, ?_⟩
  · exact lookupVal_setValue_self e.value hmeta
  · intro hne hEq
    apply hne
    rw [← hEq]
    exact lookupVal_setValue_self e.value hmeta

/-- Witness for C9: empty selection, meta UID initially different from the
body UID. -/
theorem claim_C9_witness :
    ∃ ds2, anonymize_dicom_file demoUid blankAll
        (some ⟨[demoMetaE], [demoUI]⟩) [] = .ok (true, some ds2) ∧
      lookupVal (0x0002, 0x0003) ds2.file_meta = some "1.2.3.4" ∧
      (lookupVal (0x0002, 0x0003) [demoMetaE] ≠ some "1.2.3.4" →
        ds2.file_meta ≠ [demoMetaE]) := by
  have h := claim_C9_meta_sync_unconditional demoUid blankAll
    ⟨[demoMetaE], [demoUI]⟩ demoUI rfl rfl
  exact h

/-- Claim C3: for every selected tag present in the dataset, the
replacement written by the tag-rewrite pass is determined by the
element's VR: PN/SH/LO/ST/LT get "ANONYMIZED", DA gets "18000101", TM
gets "000000", DS/IS get "0", and UI gets a freshly generated identifier
drawn from the generator (never a fixed constant). -/
theorem claim_C3_vr_rewrite_policy (u : Nat → String) (b : String → Bool)
    (sel : List (Nat × Nat)) (body : List DataElement) (t : Nat × Nat)
    (e : DataElement) (hmem : t ∈ sel) (hl : lookupE t body = some e) :
    ((e.vr = "PN" ∨ e.vr = "SH" ∨ e.vr = "LO" ∨ e.vr = "ST" ∨ e.vr = "LT") →
      lookupVal t (rewrittenBody u b sel body) = some "ANONYMIZED") ∧
    (e.vr = "DA" →
      lookupVal t (rewrittenBody u b sel body) = some "18000101") ∧
    (e.vr = "TM" →
      lookupVal t (rewrittenBody u b sel body) = some "000000") ∧
    ((e.vr = "DS" ∨ e.vr = "IS") →
      lookupVal t (rewrittenBody u b sel body) = some "0") ∧
    (e.vr = "UI" →
      ∃ k, lookupVal t (rewrittenBody u b sel body) = some (u k)) := by
  refine ⟨?_, ?_, ?_, ?_, ?_⟩
  · intro h5
    have hvr : e.vr ≠ "UI" := by
      rcases h5 with h | h | h | h | h <;> rw [h] <;> decide
    rw [lookupVal, rewrittenBody_lookup_sel_nonUI hmem hl hvr]
    rcases h5 with h | h | h | h | h <;> rw [h] <;> rfl
  · intro h
    have hvr : e.vr ≠ "UI" := by rw [h]; decide
    rw [lookupVal, rewrittenBody_lookup_sel_nonUI hmem hl hvr, h]
    rfl
  · intro h
    have hvr : e.vr ≠ "UI" := by rw [h]; decide
    rw [lookupVal, rewrittenBody_lookup_sel_nonUI hmem hl hvr, h]
    rfl
  · intro h2
    have hvr : e.vr ≠ "UI" := by
      rcases h2 with h | h <;> rw [h] <;> decide
    rw [lookupVal, rewrittenBody_lookup_sel_nonUI hmem hl hvr]
    rcases h2 with h | h <;> rw [h] <;> rfl
  · intro h
    obtain ⟨k, hk⟩ := rewrittenBody_lookup_sel_UI hmem hl h
    refine ⟨k, ?_⟩
    rw [lookupVal, hk]
    rfl

/-- Witness for C3 on the demo dataset (PN, DA and UI branches hold at
concrete inputs). -/
theorem claim_C3_witness :
    lookupVal (0x0010, 0x0010)
        (rewrittenBody demoUid blankAll
          [(0x0010, 0x0010), (0x0010, 0x0030), (0x0008, 0x0018)]
          demoDS.body) = some "ANONYMIZED" ∧
    lookupVal (0x0010, 0x0030)
        (rewrittenBody demoUid blankAll
          [(0x0010, 0x0010), (0x0010, 0x0030), (0x0008, 0x0018)]
          demoDS.body) = some "18000101" ∧
    ∃ k, lookupVal (0x0008, 0x0018)
        (rewrittenBody demoUid blankAll
          [(0x0010, 0x0010), (0x0010, 0x0030), (0x0008, 0x0018)]
          demoDS.body) = some (demoUid k) := by
  refine ⟨?_, ?_, ?_⟩
  · exact (claim_C3_vr_rewrite_policy demoUid blankAll
      [(0x0010, 0x0010), (0x0010, 0x0030), (0x0008, 0x0018)] demoDS.body
      (0x0010, 0x0010) demoPN (by decide) rfl).1 (Or.inl rfl)
  · exact (claim_C3_vr_rewrite_policy demoUid blankAll
      [(0x0010, 0x0010), (0x0010, 0x0030), (0x0008, 0x0018)] demoDS.body
      (0x0010, 0x0030) demoDA (by decide) rfl).2.1 rfl
  · exact (claim_C3_vr_rewrite_policy demoUid blankAll
      [(0x0010, 0x0010), (0x0010, 0x0030), (0x0008, 0x0018)] demoDS.body
      (0x0008, 0x0018) demoUI (by decide) rfl).2.2.2.2 rfl

/-- Claim C7: re-running the tag-rewrite pass with the same selection on
an already-rewritten dataset leaves text, date, time and numeric-string
sentinels unchanged, while a UI element receives a newly regenerated
identifier which is still valid whenever the generator only produces
valid identifiers. -/
theorem claim_C7_idempotence (u1 u2 : Nat → String) (b : String → Bool)
    (sel : List (Nat × Nat)) (body : List DataElement) (t : Nat × Nat)
    (e : DataElement) (hmem : t ∈ sel) (hl : lookupE t body = some e)
    (hvalid : ∀ n, isValidUID (u2 n) = true) :
    ((e.vr = "PN" ∨ e.vr = "SH" ∨ e.vr = "LO" ∨ e.vr = "ST" ∨ e.vr = "LT" ∨
        e.vr = "DA" ∨ e.vr = "TM" ∨ e.vr = "DS" ∨ e.vr = "IS") →
      lookupE t (rewrittenBody u2 b sel (rewrittenBody u1 b sel body)) =
        lookupE t (rewrittenBody u1 b sel body)) ∧
    (e.vr = "UI" →
      ∃ k, lookupE t (rewrittenBody u2 b sel (rewrittenBody u1 b sel body)) =
          some ⟨t, "UI", u2 k⟩ ∧ isValidUID (u2 k) = true) := by
  constructor
  · intro h9
    rcases h9 with h | h | h | h | h | h | h | h | h
    · exact rewritePass_det_fixed (v := "ANONYMIZED") hmem hl
        (by rw [h]; decide) (by rw [h]; rfl)
    · exact rewritePass_det_fixed (v := "ANONYMIZED") hmem hl
        (by rw [h]; decide) (by rw [h]; rfl)
    · exact rewritePass_det_fixed (v := "ANONYMIZED") hmem hl
        (by rw [h]; decide) (by rw [h]; rfl)
    · exact rewritePass_det_fixed (v := "ANONYMIZED") hmem hl
        (by rw [h]; decide) (by rw [h]; rfl)
    · exact rewritePass_det_fixed (v := "ANONYMIZED") hmem hl
        (by rw [h]; decide) (by rw [h]; rfl)
    · exact rewritePass_det_fixed (v := "18000101") hmem hl
        (by rw [h]; decide) (by rw [h]; rfl)
    · exact rewritePass_det_fixed (v := "000000") hmem hl
        (by rw [h]; decide) (by rw [h]; rfl)
    · exact rewritePass_det_fixed (v := "0") hmem hl
        (by rw [h]; decide) (by rw [h]; rfl)
    · exact rewritePass_det_fixed (v := "0") hmem hl
        (by rw [h]; decide) (by rw [h]; rfl)
  · intro h
    obtain ⟨k1, hk1⟩ := rewrittenBody_lookup_sel_UI (u := u1) hmem hl h
    obtain ⟨k, hk⟩ := rewrittenBody_lookup_sel_UI (u := u2) hmem hk1 rfl
    exact ⟨k, hk, hvalid k⟩

/-- Witness for C7 on the demo dataset, with a validity-respecting
generator. -/
theorem claim_C7_witness :
    (lookupE (0x0010, 0x0010)
        (rewrittenBody demoUidC blankAll [(0x0010, 0x0010), (0x0008, 0x0018)]
          (rewrittenBody demoUid blankAll [(0x0010, 0x0010), (0x0008, 0x0018)]
            demoDS.body)) =
      lookupE (0x0010, 0x0010)
        (rewrittenBody demoUid blankAll [(0x0010, 0x0010), (0x0008, 0x0018)]
          demoDS.body)) ∧
    ∃ k, lookupE (0x0008, 0x0018)
        (rewrittenBody demoUidC blankAll [(0x0010, 0x0010), (0x0008, 0x0018)]
          (rewrittenBody demoUid blankAll [(0x0010, 0x0010), (0x0008, 0x0018)]
            demoDS.body)) =
        some ⟨(0x0008, 0x0018), "UI", demoUidC k⟩ ∧
      isValidUID (demoUidC k) = true := by
  have hvalid : ∀ n, isValidUID (demoUidC n) = true := by
    intro n
    simp only [demoUidC]
    decide
  constructor
  · exact (claim_C7_idempotence demoUid demoUidC blankAll
      [(0x0010, 0x0010), (0x0008, 0x0018)] demoDS.body (0x0010, 0x0010)
      demoPN (by decide) rfl hvalid).1 (Or.inl rfl)
  · exact (claim_C7_idempotence demoUid demoUidC blankAll
      [(0x0010, 0x0010), (0x0008, 0x0018)] demoDS.body (0x0008, 0x0018)
      demoUI (by decide) rfl hvalid).2 rfl

/-- Claim C8: the rewrite touches only selected elements (keeping the VR
of any element that survives at a selected tag), selected tags absent
from the dataset are silently skipped, every non-private non-selected
element keeps its exact (tag, VR, value) triple through rewrite plus
private removal, and a private-free body is unchanged by the empty
selection. -/
theorem claim_C8_frame (u : Nat → String) (b : String → Bool)
    (sel : List (Nat × Nat)) (body : List DataElement) (t : Nat × Nat) :
    (∀ e e', t ∈ sel → lookupE t body = some e →
      lookupE t (rewrittenBody u b sel body) = some e' →
      e'.vr = e.vr ∧ e'.tag = t) ∧
    (t ∈ sel → lookupE t body = none →
      lookupE t (rewrittenBody u b sel body) = none) ∧
    (t ∉ sel → isPrivate t = false →
      lookupE t (strippedBody u b sel body) = lookupE t body) ∧
    ((∀ e ∈ body, isPrivate e.tag = false) →
      strippedBody u b [] body = body) := by
  refine ⟨?_, ?_, ?_, ?_⟩
  · intro e e' hmem hl he'
    obtain ⟨e0, he0, ht0, hv0⟩ := rewrittenBody_lookup_some_inv he'
    rw [hl] at he0
    have he0e : e = e0 := Option.some_inj.mp he0
    exact ⟨hv0.trans (congrArg DataElement.vr he0e.symm), lookupE_tag_eq he'⟩
  · intro _ h
    exact rewrittenBody_lookup_none h
  · intro hnot hpub
    simp only [strippedBody]
    rw [lookupE_remove_private_of_public hpub]
    exact rewrittenBody_lookup_notMem hnot
  · intro hall
    simp only [strippedBody]
    have h1 : rewrittenBody u b [] body = body := rfl
    rw [h1]
    exact remove_private_eq_self hall

/-- Witness for C8 on a private-free demo body. -/
theorem claim_C8_witness :
    (∀ e', lookupE (0x0010, 0x0010)
        (rewrittenBody demoUid blankAll [(0x0010, 0x0010)] demoBodyPF) =
          some e' → e'.vr = "PN" ∧ e'.tag = (0x0010, 0x0010)) ∧
    (lookupE (0x0020, 0x000D)
      (rewrittenBody demoUid blankAll [(0x0020, 0x000D)] demoBodyPF) =
        none) ∧
    (lookupE (0x0010, 0x0030)
      (strippedBody demoUid blankAll [(0x0010, 0x0010)] demoBodyPF) =
        lookupE (0x0010, 0x0030) demoBodyPF) ∧
    (strippedBody demoUid blankAll [] demoBodyPF = demoBodyPF) := by
  refine ⟨?_, ?_, ?_, ?_⟩
  · intro e' he'
    have h := (claim_C8_frame demoUid blankAll [(0x0010, 0x0010)] demoBodyPF
      (0x0010, 0x0010)).1 demoPN e' (by decide) rfl he'
    exact ⟨h.1.trans rfl, h.2⟩
  · exact (claim_C8_frame demoUid blankAll [(0x0020, 0x000D)] demoBodyPF
      (0x0020, 0x000D)).2.1 (by decide) rfl
  · exact (claim_C8_frame demoUid blankAll [(0x0010, 0x0010)] demoBodyPF
      (0x0010, 0x0030)).2.2.1 (by decide) rfl
  · exact (claim_C8_frame demoUid blankAll [] demoBodyPF
      (0x0010, 0x0010)).2.2.2 (by decide)

/-- Claim C10: the rewrite pass is deterministic except for unique
identifiers: two runs with different generator streams agree entirely
when no selected tag present in the dataset has VR "UI"; on every tag that
is not a selected, present UI element the two outputs agree pointwise;
and a selected present UI element keeps its tag and VR, only its value
coming from the respective generator. -/
theorem claim_C10_determinism (u1 u2 : Nat → String) (b : String → Bool)
    (sel : List (Nat × Nat)) (body : List DataElement) :
    ((∀ e ∈ body, e.tag ∈ sel → e.vr ≠ "UI") →
      rewrittenBody u1 b sel body = rewrittenBody u2 b sel body) ∧
    (∀ t, (t ∉ sel ∨ lookupE t body = none ∨
        (∃ e, lookupE t body = some e ∧ e.vr ≠ "UI")) →
      lookupE t (rewrittenBody u1 b sel body) =
        lookupE t (rewrittenBody u2 b sel body)) ∧
    (∀ t e, t ∈ sel → lookupE t body = some e → e.vr = "UI" →
      ∃ k1 k2,
        lookupE t (rewrittenBody u1 b sel body) = some ⟨t, "UI", u1 k1⟩ ∧
        lookupE t (rewrittenBody u2 b sel body) = some ⟨t, "UI", u2 k2⟩) := by
  refine ⟨?_, ?_, ?_⟩
  · intro hno
    simp only [rewrittenBody]
    rw [rewritePass_eq_of_noUI sel (body, 0) (fun a ha => ha) hno]
  · intro t hcase
    rcases hcase with hnot | hnone | ⟨e, hl, hvr⟩
    · rw [rewrittenBody_lookup_notMem hnot, rewrittenBody_lookup_notMem hnot]
    · rw [rewrittenBody_lookup_none hnone, rewrittenBody_lookup_none hnone]
    · by_cases hmem : t ∈ sel
      · rw [rewrittenBody_lookup_sel_nonUI hmem hl hvr,
          rewrittenBody_lookup_sel_nonUI hmem hl hvr]
      · rw [rewrittenBody_lookup_notMem hmem, rewrittenBody_lookup_notMem hmem]
  · intro t e hmem hl hvr
    obtain ⟨k1, hk1⟩ := rewrittenBody_lookup_sel_UI (u := u1) hmem hl hvr
    obtain ⟨k2, hk2⟩ := rewrittenBody_lookup_sel_UI (u := u2) hmem hl hvr
    exact ⟨k1, k2, hk1, hk2⟩

/-- Witness for C10 with two distinct generator streams. -/
theorem claim_C10_witness :
    (rewrittenBody demoUid blankAll [(0x0010, 0x0010)] [demoPN, demoDA] =
      rewrittenBody demoUid2 blankAll [(0x0010, 0x0010)] [demoPN, demoDA]) ∧
    (lookupE (0x0008, 0x0018)
        (rewrittenBody demoUid blankAll [(0x0010, 0x0010)] demoDS.body) =
      lookupE (0x0008, 0x0018)
        (rewrittenBody demoUid2 blankAll [(0x0010, 0x0010)] demoDS.body)) ∧
    ∃ k1 k2,
      lookupE (0x0008, 0x0018)
          (rewrittenBody demoUid blankAll [(0x0008, 0x0018)] demoDS.body) =
        some ⟨(0x0008, 0x0018), "UI", demoUid k1⟩ ∧
      lookupE (0x0008, 0x0018)
          (rewrittenBody demoUid2 blankAll [(0x0008, 0x0018)] demoDS.body) =
        some ⟨(0x0008, 0x0018), "UI", demoUid2 k2⟩ := by
  refine ⟨?_, ?_, ?_⟩
  · exact (claim_C10_determinism demoUid demoUid2 blankAll [(0x0010, 0x0010)]
      [demoPN, demoDA]).1 (by decide)
  · exact (claim_C10_determinism demoUid demoUid2 blankAll [(0x0010, 0x0010)]
      demoDS.body).2.1 (0x0008, 0x0018) (Or.inl (by decide))
  · exact (claim_C10_determinism demoUid demoUid2 blankAll [(0x0008, 0x0018)]
      demoDS.body).2.2 (0x0008, 0x0018) demoUI (by decide) rfl rfl

/-- Claim C4 (counterexample): a decodable input on which
`anonymize_dicom_file` raises instead of returning a boolean — the file
meta contains (0002,0003) while the body has no SOP-Instance-UID, so the
meta-synchronization read escapes as an exception and no output is
written, refuting "for every decodable input the operation returns a
boolean and never raises". -/
theorem claim_C4_counterexample :
    anonymize_dicom_file demoUid blankAll (some dsC4) [] =
      .error .attributeError := rfl

/-- Claim C4 (amended): `anonymize_dicom_file` returns False exactly when
the input is undecodable; for every decodable input it either returns
True with an output dataset, or raises `AttributeError` — which happens
precisely when the file meta contains (0002,0003) and the processed body
lacks an SOP-Instance-UID element. -/
theorem claim_C4_amended_result_classification (u : Nat → String)
    (b : String → Bool) (inp : Option FileDataset) (sel : List (Nat × Nat)) :
    ((∃ r, anonymize_dicom_file u b inp sel = .ok (false, r)) ↔ inp = none) ∧
    (∀ ds, inp = some ds →
      (∃ ds2, anonymize_dicom_file u b inp sel = .ok (true, some ds2)) ∨
      (anonymize_dicom_file u b inp sel = .error .attributeError ∧
        containsTag (0x0002, 0x0003) ds.file_meta = true ∧
        lookupE (0x0008, 0x0018) (strippedBody u b sel ds.body) = none)) := by
  constructor
  · constructor
    · rintro ⟨r, hr⟩
      cases inp with
      | none => rfl
      | some ds =>
        cases ha : anonymize_ds u b sel ds with
        | error ex =>
          rw [anonymize_dicom_file_some_error ha] at hr
          exact absurd hr (by simp)
        | ok d2 =>
          rw [anonymize_dicom_file_some_ok ha] at hr
          have h2 := Except.ok.inj hr
          exact absurd (congrArg Prod.fst h2) (by simp)
    · rintro rfl
      exact ⟨none, rfl⟩
  · intro ds hinp
    subst hinp
    cases ha : anonymize_ds u b sel ds with
    | ok d2 => exact Or.inl ⟨d2, anonymize_dicom_file_some_ok ha⟩
    | error ex =>
      obtain ⟨hm, hs⟩ := anonymize_ds_error_iff.mp ha
      cases ex
      exact Or.inr ⟨anonymize_dicom_file_some_error ha, hm, hs⟩

/-- Witness for the amended C4 at a concrete decodable input. -/
theorem claim_C4_amended_witness :
    (∃ ds2, anonymize_dicom_file demoUid blankAll (some demoDS) [] =
      .ok (true, some ds2)) ∨
    (anonymize_dicom_file demoUid blankAll (some demoDS) [] =
        .error .attributeError ∧
      containsTag (0x0002, 0x0003) demoDS.file_meta = true ∧
      lookupE (0x0008, 0x0018) (strippedBody demoUid blankAll [] demoDS.body) =
        none) :=
  (claim_C4_amended_result_classification demoUid blankAll
    (some demoDS) []).2 demoDS rfl

/-- Claim C6 (counterexample): a selected present element with VR "OB"
(outside the ten dispatch VRs) whose blank assignment is rejected — the
element is deleted as the claim says, but the output file is NOT
produced: the deleted element was the body's SOP-Instance-UID and the
meta contains (0002,0003), so the later meta-synchronization raises. -/
theorem claim_C6_counterexample :
    ((0x0008, 0x0018) ∈ ([(0x0008, 0x0018)] : List (Nat × Nat))) ∧
    lookupE (0x0008, 0x0018) dsC6.body =
      some ⟨(0x0008, 0x0018), "OB", "1.5"⟩ ∧
    ("OB" ∉ (["UI", "PN", "SH", "LO", "ST", "LT", "DA", "TM", "DS", "IS"] :
      List String)) ∧
    blankNone "OB" = false ∧
    lookupE (0x0008, 0x0018)
      (rewrittenBody demoUid blankNone [(0x0008, 0x0018)] dsC6.body) = none ∧
    anonymize_dicom_file demoUid blankNone (some dsC6) [(0x0008, 0x0018)] =
      .error .attributeError := by
  refine ⟨by decide, rfl, by decide, rfl, rfl, rfl⟩

/-- Claim C6 (amended): for every selected element whose VR is outside
UI/PN/SH/LO/ST/LT/DA/TM/DS/IS, the loop first attempts the empty value —
if the VR accepts it the element's value becomes empty, otherwise the
element is deleted and the loop continues non-fatally; the output file is
still produced unless the meta-synchronization step fails, which happens
exactly when the meta contains (0002,0003) and the processed body has no
SOP-Instance-UID element. -/
theorem claim_C6_amended_blank_or_delete (u : Nat → String)
    (b : String → Bool) (sel : List (Nat × Nat)) (ds : FileDataset)
    (t : Nat × Nat) (e : DataElement) (hmem : t ∈ sel)
    (hl : lookupE t ds.body = some e)
    (hvr : e.vr ∉ (["UI", "PN", "SH", "LO", "ST", "LT", "DA", "TM", "DS",
      "IS"] : List String)) :
    (b e.vr = true →
      lookupE t (rewrittenBody u b sel ds.body) = some ⟨t, e.vr, ""⟩) ∧
    (b e.vr = false →
      lookupE t (rewrittenBody u b sel ds.body) = none) ∧
    (∀ ex, anonymize_dicom_file u b (some ds) sel = .error ex →
      containsTag (0x0002, 0x0003) ds.file_meta = true ∧
      lookupE (0x0008, 0x0018) (strippedBody u b sel ds.body) = none) ∧
    (containsTag (0x0002, 0x0003) ds.file_meta = false →
      anonymize_dicom_file u b (some ds) sel =
        .ok (true, some ⟨ds.file_meta, strippedBody u b sel ds.body⟩)) := by
  have hne : e.vr ≠ "UI" ∧ e.vr ≠ "PN" ∧ e.vr ≠ "SH" ∧ e.vr ≠ "LO" ∧
      e.vr ≠ "ST" ∧ e.vr ≠ "LT" ∧ e.vr ≠ "DA" ∧ e.vr ≠ "TM" ∧
      e.vr ≠ "DS" ∧ e.vr ≠ "IS" := by
    simpa [not_or] using hvr
  obtain ⟨h0, h1, h2, h3, h4, h5, h6, h7, h8, h9⟩ := hne
  have hsent : sentinelValue b e.vr = if b e.vr then some "" else none := by
    rw [sentinelValue, if_neg (by simp [h1, h2, h3, h4, h5]), if_neg h6,
      if_neg h7, if_neg (by simp [h8, h9])]
  refine ⟨?_, ?_, ?_, ?_⟩
  · intro hb
    rw [rewrittenBody_lookup_sel_nonUI hmem hl h0, hsent, hb]
    rfl
  · intro hb
    rw [rewrittenBody_lookup_sel_nonUI hmem hl h0, hsent, hb]
    rfl
  · intro ex hex
    cases ha : anonymize_ds u b sel ds with
    | ok d2 =>
      rw [anonymize_dicom_file_some_ok ha] at hex
      exact absurd hex (by simp)
    | error ex2 =>
      exact anonymize_ds_error_iff.mp ha
  · intro hm
    exact anonymize_dicom_file_some_ok (anonymize_ds_ok_of_meta_absent hm)

/-- Witness for the amended C6: a rejected blank deletes the element and
the file is still produced when the meta lacks (0002,0003). -/
theorem claim_C6_amended_witness :
    (lookupE (0x0028, 0x0010)
      (rewrittenBody demoUid blankNone [(0x0028, 0x0010)] [demoUS]) =
        none) ∧
    anonymize_dicom_file demoUid blankNone
        (some ⟨[], [demoUS]⟩) [(0x0028, 0x0010)] =
      .ok (true, some ⟨[],
        strippedBody demoUid blankNone [(0x0028, 0x0010)] [demoUS]⟩) := by
  have h := claim_C6_amended_blank_or_delete demoUid blankNone
    [(0x0028, 0x0010)] ⟨[], [demoUS]⟩ (0x0028, 0x0010) demoUS
    (by decide) rfl (by decide)
  exact ⟨h.2.1 rfl, h.2.2.2 rfl⟩
